import Mathlib

/-!
Verification of the worldpop-stats zonal aggregator
(`src/worldpop_stats/worldpop_stats.py`).

The script orchestrates calls to an external geospatial platform
(Google Earth Engine via the `ee`/`geemap` libraries).  We embed it
shallowly: the external platform is an oracle (`Env`) answering the
polygon-loading call and each remote aggregation request, and the
script's behaviour is a pure function from that oracle to a trace of
observable events (aggregation calls issued, output-file writes,
operator-facing prints).  An exception that the script does not catch
surfaces as `Except.error`.
-/

/-- A Python exception, as the script observes it: `type(ex).__name__`
and the textual `repr(ex.args)` it string-matches on. -/
structure ExnInfo where
  typeName : String
  argsRepr : String
deriving DecidableEq

/-- Handle `ee.ImageCollection(id)`: an opaque remote raster-collection
handle identified by its dataset-identifier string. -/
inductive EEImageCollection where
  | imageCollection (id : String)
deriving DecidableEq

/-- An `ee.Image`; the script only ever builds one by `.mosaic()` on a
collection. -/
inductive EEImage where
  | mosaicOf (c : EEImageCollection)
deriving DecidableEq

/-- Source `get_worldpop_data_from_gee` (lines 8-23): picks one of two
fixed dataset identifiers according to the `constrained` flag. -/
def get_worldpop_data_from_gee (constrained : Bool) : EEImageCollection :=
  if constrained then
    EEImageCollection.imageCollection "WorldPop/GP/100m/pop_age_sex_cons_unadj"
  else
    EEImageCollection.imageCollection "WorldPop/GP/100m/pop_age_sex"

/-- Source `worldpop_mosaic` (lines 26-40): mosaics the selected
collection. -/
def worldpop_mosaic (constrained : Bool) : EEImage :=
  EEImage.mosaicOf (get_worldpop_data_from_gee constrained)

/-- One aggregation request, i.e. the argument tuple of a
`geemap.zonal_statistics(worldpop, fc, out_file_path=..., scale=...,
statistics_type='SUM', bestEffort=True[, tile_scale=n])` call.
`tile_scale = none` means the keyword was not passed (platform default 1). -/
structure ZonalRequest where
  raster : EEImage
  fc : String
  out_file_path : String
  scale : Int
  statistics_type : String
  bestEffort : Bool
  tile_scale : Option Nat
deriving DecidableEq

/-- Outcome of one remote aggregation call: the platform either returns
a result table (which `geemap.zonal_statistics` then writes to the
output file) or raises. -/
inductive CallResult where
  | success (table : String)
  | failure (ex : ExnInfo)
deriving DecidableEq

/-- The external world as the script sees it: the polygon loader
`geemap.shp_to_ee` may return a feature-collection handle or raise, and
each aggregation request gets a deterministic answer. -/
structure Env where
  shp_to_ee : String → Except ExnInfo String
  zonal : ZonalRequest → CallResult

/-- Observable events of one run, in order. -/
inductive Event where
  | zonalCall (req : ZonalRequest)
  | outputWrite (path : String) (content : String)
  | printed (msg : String)
deriving DecidableEq

/-- Library call `geemap.zonal_statistics`: issues the request; on
success writes the result table to the request's output path, on
failure raises. -/
def zonal_statistics (env : Env) (req : ZonalRequest) :
    List Event × Option ExnInfo :=
  match env.zonal req with
  | CallResult.success table =>
      ([Event.zonalCall req, Event.outputWrite req.out_file_path table], none)
  | CallResult.failure ex => ([Event.zonalCall req], some ex)

/-- Whether `p` occurs at the start of `s` (on character lists). -/
def charsStartWith : List Char → List Char → Bool
  | _, [] => true
  | [], _ :: _ => false
  | c :: cs, p :: ps => c == p && charsStartWith cs ps

/-- Whether `p` occurs somewhere inside `s` (on character lists). -/
def charsContain : List Char → List Char → Bool
  | [], p => p.isEmpty
  | c :: cs, p => charsStartWith (c :: cs) p || charsContain cs p

/-- Substring test, `pat in s` of Python. -/
def strContains (s pat : String) : Bool :=
  charsContain s.data pat.data

/-- The substring the script matches against `repr(ex.args)` (lines 70,
77, 84). -/
def tooLargeSubstr : String := "Output of image computation is too large"

/-- The classification the script applies to a caught exception. -/
def isTooLarge (ex : ExnInfo) : Bool :=
  strContains ex.argsRepr tooLargeSubstr

/-- Message `error_template.format(type(ex).__name__, ex.args)` built
from the template of line 63. -/
def error_message (ex : ExnInfo) : String :=
  "An exception of type " ++ ex.typeName ++ " occurred. Arguments:\n"
    ++ ex.argsRepr

/-- Escalation notice printed before retrying with `tile_scale = 2`. -/
def retry2Msg : String := "Computation is too large, trying tileScale=2"

/-- Escalation notice printed before retrying with `tile_scale = 4`. -/
def retry4Msg : String := "Computation is too large, trying tileScale=4"

/-- The give-up message of lines 85-86. -/
def giveUpMsg : String :=
  "The shapefile is too big for the scale. You could try splitting up the shapefile or increasing the scale parameter."

/-- The request the script builds on a given attempt: every field other
than `tile_scale` is fixed by the invocation's arguments. -/
def mkReq (constrained : Bool) (fc out_path : String) (scale : Int)
    (ts : Option Nat) : ZonalRequest :=
  { raster := worldpop_mosaic constrained
    fc := fc
    out_file_path := out_path
    scale := scale
    statistics_type := "SUM"
    bestEffort := true
    tile_scale := ts }

/-- Source `worldpop_zonal_stats` (lines 43-98).  `shp_to_ee` and the
mosaic construction happen before the `try` block, so a polygon-loading
error propagates (`Except.error`); everything after is the
three-attempt retry ladder whose errors are all caught. -/
def worldpop_zonal_stats (env : Env) (shapefile out_path : String)
    (constrained : Bool) (scale : Int) : Except ExnInfo (List Event) :=
  match env.shp_to_ee shapefile with
  | Except.error ex => Except.error ex
  | Except.ok fc =>
    let req1 := mkReq constrained fc out_path scale none
    match zonal_statistics env req1 with
    | (ev1, none) => Except.ok ev1
    | (ev1, some ex1) =>
      if isTooLarge ex1 then
        let req2 := mkReq constrained fc out_path scale (some 2)
        match zonal_statistics env req2 with
        | (ev2, none) => Except.ok (ev1 ++ [Event.printed retry2Msg] ++ ev2)
        | (ev2, some ex2) =>
          if isTooLarge ex2 then
            let req3 := mkReq constrained fc out_path scale (some 4)
            match zonal_statistics env req3 with
            | (ev3, none) =>
                Except.ok (ev1 ++ [Event.printed retry2Msg] ++ ev2
                  ++ [Event.printed retry4Msg] ++ ev3)
            | (ev3, some ex3) =>
              if isTooLarge ex3 then
                Except.ok (ev1 ++ [Event.printed retry2Msg] ++ ev2
                  ++ [Event.printed retry4Msg] ++ ev3
                  ++ [Event.printed giveUpMsg])
              else
                Except.ok (ev1 ++ [Event.printed retry2Msg] ++ ev2
                  ++ [Event.printed retry4Msg] ++ ev3
                  ++ [Event.printed (error_message ex3)])
          else
            Except.ok (ev1 ++ [Event.printed retry2Msg] ++ ev2
              ++ [Event.printed (error_message ex2)])
      else
        Except.ok (ev1 ++ [Event.printed (error_message ex1)])

/-- Python-side default of `out_path` (line 44). -/
def default_out_path : String := "output.csv"

/-- Python-side default of `constrained` (line 45). -/
def default_constrained : Bool := false

/-- Python-side default of `scale` (line 46). -/
def default_scale : Int := 100

/-- Invocation `worldpop_zonal_stats(shapefile)` with every optional
argument left at its declared default. -/
def worldpop_zonal_stats_default (env : Env) (shapefile : String) :
    Except ExnInfo (List Event) :=
  worldpop_zonal_stats env shapefile default_out_path default_constrained
    default_scale

/-- The aggregation requests issued during a run, in order. -/
def callsOf (evs : List Event) : List ZonalRequest :=
  evs.filterMap fun e =>
    match e with
    | Event.zonalCall r => some r
    | _ => none

/-- The output-file writes of a run: (path, content) pairs, in order. -/
def writesOf (evs : List Event) : List (String × String) :=
  evs.filterMap fun e =>
    match e with
    | Event.outputWrite p c => some (p, c)
    | _ => none

/-- The operator-facing messages printed during a run, in order. -/
def printsOf (evs : List Event) : List String :=
  evs.filterMap fun e =>
    match e with
    | Event.printed m => some m
    | _ => none

/-- A concrete "computation too large" exception as Earth Engine raises
it. -/
def exTooBig : ExnInfo :=
  { typeName := "EEException"
    argsRepr := "('Output of image computation is too large.',)" }

/-- A concrete exception whose text does not match the "too large"
pattern. -/
def exOpaque : ExnInfo :=
  { typeName := "HttpError"
    argsRepr := "('User memory limit exceeded.',)" }

/-- A concrete polygon-loading failure. -/
def exShpFail : ExnInfo :=
  { typeName := "FileNotFoundError"
    argsRepr := "(2, 'No such file or directory')" }

/-- Stub platform on which every aggregation attempt fails with the
"too large" error. -/
def envAllTooBig : Env :=
  { shp_to_ee := fun _ => Except.ok "fc0"
    zonal := fun _ => CallResult.failure exTooBig }

/-- Stub platform: first attempt too large, any retry succeeds. -/
def envSecondOk : Env :=
  { shp_to_ee := fun _ => Except.ok "fc0"
    zonal := fun r =>
      match r.tile_scale with
      | none => CallResult.failure exTooBig
      | some _ => CallResult.success "id,sum\n0,1234" }

/-- Stub platform: first two attempts too large, the third succeeds. -/
def envThirdOk : Env :=
  { shp_to_ee := fun _ => Except.ok "fc0"
    zonal := fun r =>
      match r.tile_scale with
      | some 4 => CallResult.success "id,sum\n0,1234"
      | _ => CallResult.failure exTooBig }

/-- Stub platform on which the first attempt fails with an error that
does not match the "too large" pattern. -/
def envOpaque1 : Env :=
  { shp_to_ee := fun _ => Except.ok "fc0"
    zonal := fun _ => CallResult.failure exOpaque }

/-- Stub platform on which polygon loading itself raises. -/
def envShpFail : Env :=
  { shp_to_ee := fun _ => Except.error exShpFail
    zonal := fun _ => CallResult.failure exTooBig }

/-- Projection of the output path out of a built request. -/
theorem mkReq_out (c : Bool) (fc op : String) (sc : Int) (ts : Option Nat) :
    (mkReq c fc op sc ts).out_file_path = op := rfl

/-- Exhaustive characterisation of a run whose polygon loading
succeeded: exactly one of the seven terminal shapes of the retry ladder
occurs, and in each the full event trace is determined by the oracle's
answers. -/
theorem run_cases (env : Env) (shapefile out_path : String)
    (constrained : Bool) (scale : Int) (fc : String)
    (hfc : env.shp_to_ee shapefile = Except.ok fc) :
    (∃ t, env.zonal (mkReq constrained fc out_path scale none)
        = CallResult.success t ∧
      worldpop_zonal_stats env shapefile out_path constrained scale
        = Except.ok
          [Event.zonalCall (mkReq constrained fc out_path scale none),
           Event.outputWrite out_path t]) ∨
    (∃ ex1, env.zonal (mkReq constrained fc out_path scale none)
        = CallResult.failure ex1 ∧ isTooLarge ex1 = false ∧
      worldpop_zonal_stats env shapefile out_path constrained scale
        = Except.ok
          [Event.zonalCall (mkReq constrained fc out_path scale none),
           Event.printed (error_message ex1)]) ∨
    (∃ ex1 t, env.zonal (mkReq constrained fc out_path scale none)
        = CallResult.failure ex1 ∧ isTooLarge ex1 = true ∧
      env.zonal (mkReq constrained fc out_path scale (some 2))
        = CallResult.success t ∧
      worldpop_zonal_stats env shapefile out_path constrained scale
        = Except.ok
          [Event.zonalCall (mkReq constrained fc out_path scale none),
           Event.printed retry2Msg,
           Event.zonalCall (mkReq constrained fc out_path scale (some 2)),
           Event.outputWrite out_path t]) ∨
    (∃ ex1 ex2, env.zonal (mkReq constrained fc out_path scale none)
        = CallResult.failure ex1 ∧ isTooLarge ex1 = true ∧
      env.zonal (mkReq constrained fc out_path scale (some 2))
        = CallResult.failure ex2 ∧ isTooLarge ex2 = false ∧
      worldpop_zonal_stats env shapefile out_path constrained scale
        = Except.ok
          [Event.zonalCall (mkReq constrained fc out_path scale none),
           Event.printed retry2Msg,
           Event.zonalCall (mkReq constrained fc out_path scale (some 2)),
           Event.printed (error_message ex2)]) ∨
    (∃ ex1 ex2 t, env.zonal (mkReq constrained fc out_path scale none)
        = CallResult.failure ex1 ∧ isTooLarge ex1 = true ∧
      env.zonal (mkReq constrained fc out_path scale (some 2))
        = CallResult.failure ex2 ∧ isTooLarge ex2 = true ∧
      env.zonal (mkReq constrained fc out_path scale (some 4))
        = CallResult.success t ∧
      worldpop_zonal_stats env shapefile out_path constrained scale
        = Except.ok
          [Event.zonalCall (mkReq constrained fc out_path scale none),
           Event.printed retry2Msg,
           Event.zonalCall (mkReq constrained fc out_path scale (some 2)),
           Event.printed retry4Msg,
           Event.zonalCall (mkReq constrained fc out_path scale (some 4)),
           Event.outputWrite out_path t]) ∨
    (∃ ex1 ex2 ex3, env.zonal (mkReq constrained fc out_path scale none)
        = CallResult.failure ex1 ∧ isTooLarge ex1 = true ∧
      env.zonal (mkReq constrained fc out_path scale (some 2))
        = CallResult.failure ex2 ∧ isTooLarge ex2 = true ∧
      env.zonal (mkReq constrained fc out_path scale (some 4))
        = CallResult.failure ex3 ∧ isTooLarge ex3 = false ∧
      worldpop_zonal_stats env shapefile out_path constrained scale
        = Except.ok
          [Event.zonalCall (mkReq constrained fc out_path scale none),
           Event.printed retry2Msg,
           Event.zonalCall (mkReq constrained fc out_path scale (some 2)),
           Event.printed retry4Msg,
           Event.zonalCall (mkReq constrained fc out_path scale (some 4)),
           Event.printed (error_message ex3)]) ∨
    (∃ ex1 ex2 ex3, env.zonal (mkReq constrained fc out_path scale none)
        = CallResult.failure ex1 ∧ isTooLarge ex1 = true ∧
      env.zonal (mkReq constrained fc out_path scale (some 2))
        = CallResult.failure ex2 ∧ isTooLarge ex2 = true ∧
      env.zonal (mkReq constrained fc out_path scale (some 4))
        = CallResult.failure ex3 ∧ isTooLarge ex3 = true ∧
      worldpop_zonal_stats env shapefile out_path constrained scale
        = Except.ok
          [Event.zonalCall (mkReq constrained fc out_path scale none),
           Event.printed retry2Msg,
           Event.zonalCall (mkReq constrained fc out_path scale (some 2)),
           Event.printed retry4Msg,
           Event.zonalCall (mkReq constrained fc out_path scale (some 4)),
           Event.printed giveUpMsg]) := by
  rcases h1 : env.zonal (mkReq constrained fc out_path scale none) with t1 | ex1
  · exact Or.inl ⟨t1, rfl,
      by simp [worldpop_zonal_stats, zonal_statistics, mkReq_out, hfc, h1]⟩
  · cases ht1 : isTooLarge ex1
    · exact Or.inr (Or.inl ⟨ex1, rfl, ht1,
        by simp [worldpop_zonal_stats, zonal_statistics, hfc, h1, ht1]⟩)
    · rcases h2 : env.zonal (mkReq constrained fc out_path scale (some 2))
        with t2 | ex2
      · exact Or.inr (Or.inr (Or.inl ⟨ex1, t2, rfl, ht1, rfl,
          by simp [worldpop_zonal_stats, zonal_statistics, mkReq_out, hfc, h1, ht1, h2]⟩))
      · cases ht2 : isTooLarge ex2
        · exact Or.inr (Or.inr (Or.inr (Or.inl ⟨ex1, ex2, rfl, ht1, rfl, ht2,
            by simp [worldpop_zonal_stats, zonal_statistics, hfc, h1, ht1, h2,
              ht2]⟩)))
        · rcases h3 : env.zonal (mkReq constrained fc out_path scale (some 4))
            with t3 | ex3
          · exact Or.inr (Or.inr (Or.inr (Or.inr (Or.inl
              ⟨ex1, ex2, t3, rfl, ht1, rfl, ht2, rfl,
               by simp [worldpop_zonal_stats, zonal_statistics, mkReq_out, hfc, h1, ht1,
                 h2, ht2, h3]⟩))))
          · cases ht3 : isTooLarge ex3
            · exact Or.inr (Or.inr (Or.inr (Or.inr (Or.inr (Or.inl
                ⟨ex1, ex2, ex3, rfl, ht1, rfl, ht2, rfl, ht3,
                 by simp [worldpop_zonal_stats, zonal_statistics, hfc, h1, ht1,
                   h2, ht2, h3, ht3]⟩)))))
            · exact Or.inr (Or.inr (Or.inr (Or.inr (Or.inr (Or.inr
                ⟨ex1, ex2, ex3, rfl, ht1, rfl, ht2, rfl, ht3,
                 by simp [worldpop_zonal_stats, zonal_statistics, hfc, h1, ht1,
                   h2, ht2, h3, ht3]⟩)))))

/-- Claim C1: when every remote aggregation attempt raises an error
containing "Output of image computation is too large", exactly three
aggregation calls are issued, with tile-scale budgets unset, 2 and 4 in
that order, no output file is written, the escalation notices and the
descriptive give-up message are printed, and the function returns
normally. -/
theorem all_attempts_too_large_gives_up (env : Env)
    (shapefile out_path : String) (constrained : Bool) (scale : Int)
    (fc : String) (hfc : env.shp_to_ee shapefile = Except.ok fc)
    (hfail : ∀ r, ∃ ex, env.zonal r = CallResult.failure ex ∧
      isTooLarge ex = true) :
    ∃ evs, worldpop_zonal_stats env shapefile out_path constrained scale
        = Except.ok evs
      ∧ (callsOf evs).map ZonalRequest.tile_scale = [none, some 2, some 4]
      ∧ writesOf evs = []
      ∧ printsOf evs = [retry2Msg, retry4Msg, giveUpMsg] := by
  obtain ⟨ex1, h1, ht1⟩ := hfail (mkReq constrained fc out_path scale none)
  obtain ⟨ex2, h2, ht2⟩ := hfail (mkReq constrained fc out_path scale (some 2))
  obtain ⟨ex3, h3, ht3⟩ := hfail (mkReq constrained fc out_path scale (some 4))
  refine ⟨[Event.zonalCall (mkReq constrained fc out_path scale none),
           Event.printed retry2Msg,
           Event.zonalCall (mkReq constrained fc out_path scale (some 2)),
           Event.printed retry4Msg,
           Event.zonalCall (mkReq constrained fc out_path scale (some 4)),
           Event.printed giveUpMsg], ?_, ?_, ?_, ?_⟩
  · simp [worldpop_zonal_stats, zonal_statistics, hfc, h1, ht1, h2, ht2,
      h3, ht3]
  · simp [callsOf, mkReq]
  · simp [writesOf]
  · simp [printsOf]

/-- Witness for C1 on the stub platform whose every aggregation answer
is the "too large" failure. -/
theorem all_attempts_too_large_gives_up_witness :
    ∃ evs, worldpop_zonal_stats envAllTooBig "districts.shp" "out.csv"
        false 100 = Except.ok evs
      ∧ (callsOf evs).map ZonalRequest.tile_scale = [none, some 2, some 4]
      ∧ writesOf evs = []
      ∧ printsOf evs = [retry2Msg, retry4Msg, giveUpMsg] :=
  all_attempts_too_large_gives_up envAllTooBig "districts.shp" "out.csv"
    false 100 "fc0" rfl (fun _ => ⟨exTooBig, rfl, by decide⟩)

/-- Claim C3 counterexample: an error raised while loading the polygon
file propagates out of `worldpop_zonal_stats` as a raised exception
(the loading call sits before the `try` block), so it is not true that
every error is caught and converted to printed text. -/
theorem polygon_load_error_propagates :
    worldpop_zonal_stats envShpFail "districts.shp" "out.csv" false 100
      = Except.error exShpFail := rfl

/-- Claim C3 (amended): whenever the polygon file loads successfully,
every error raised by the remote aggregation calls is caught and the
function returns normally; only a polygon-loading (or mosaic) error can
propagate. -/
theorem aggregation_errors_never_propagate (env : Env)
    (shapefile out_path : String) (constrained : Bool) (scale : Int)
    (fc : String) (hfc : env.shp_to_ee shapefile = Except.ok fc) :
    ∃ evs, worldpop_zonal_stats env shapefile out_path constrained scale
      = Except.ok evs := by
  rcases run_cases env shapefile out_path constrained scale fc hfc with
    ⟨t, _, hr⟩ | ⟨e1, _, _, hr⟩ | ⟨e1, t, _, _, _, hr⟩
    | ⟨e1, e2, _, _, _, _, hr⟩ | ⟨e1, e2, t, _, _, _, _, _, hr⟩
    | ⟨e1, e2, e3, _, _, _, _, _, _, hr⟩
    | ⟨e1, e2, e3, _, _, _, _, _, _, hr⟩ <;> exact ⟨_, hr⟩

/-- Witness for the amended C3 on a stub platform whose aggregation
always fails. -/
theorem aggregation_errors_never_propagate_witness :
    ∃ evs, worldpop_zonal_stats envOpaque1 "districts.shp" "out.csv"
      false 100 = Except.ok evs :=
  aggregation_errors_never_propagate envOpaque1 "districts.shp" "out.csv"
    false 100 "fc0" rfl

/-- Claim C4: when the first aggregation attempt raises a "too large"
error and the second succeeds, exactly two calls are issued (the second
with `tile_scale = 2`) and the output file is written exactly once, by
the successful call. -/
theorem second_attempt_success_trace (env : Env)
    (shapefile out_path : String) (constrained : Bool) (scale : Int)
    (fc : String) (hfc : env.shp_to_ee shapefile = Except.ok fc)
    (ex1 : ExnInfo)
    (h1 : env.zonal (mkReq constrained fc out_path scale none)
      = CallResult.failure ex1)
    (ht1 : isTooLarge ex1 = true) (t : String)
    (h2 : env.zonal (mkReq constrained fc out_path scale (some 2))
      = CallResult.success t) :
    worldpop_zonal_stats env shapefile out_path constrained scale
      = Except.ok
        [Event.zonalCall (mkReq constrained fc out_path scale none),
         Event.printed retry2Msg,
         Event.zonalCall (mkReq constrained fc out_path scale (some 2)),
         Event.outputWrite out_path t] := by
  simp [worldpop_zonal_stats, zonal_statistics, mkReq_out, hfc, h1, ht1, h2]

/-- Witness for C4 on the stub platform that fails "too large" once and
then succeeds. -/
theorem second_attempt_success_trace_witness :
    worldpop_zonal_stats envSecondOk "districts.shp" "out.csv" false 100
      = Except.ok
        [Event.zonalCall (mkReq false "fc0" "out.csv" 100 none),
         Event.printed retry2Msg,
         Event.zonalCall (mkReq false "fc0" "out.csv" 100 (some 2)),
         Event.outputWrite "out.csv" "id,sum\n0,1234"] :=
  second_attempt_success_trace envSecondOk "districts.shp" "out.csv"
    false 100 "fc0" rfl exTooBig rfl (by decide) "id,sum\n0,1234" rfl

/-- Claim C5: an aggregation error whose text does not contain the "too
large" substring stops the retry ladder immediately at whichever
attempt it occurs: no further calls, no output write on that attempt,
and the error's type name and arguments are printed; on the first
attempt this means exactly one call in total. -/
theorem opaque_error_stops_ladder (env : Env)
    (shapefile out_path : String) (constrained : Bool) (scale : Int)
    (fc : String) (hfc : env.shp_to_ee shapefile = Except.ok fc) :
    (∀ ex1, env.zonal (mkReq constrained fc out_path scale none)
        = CallResult.failure ex1 → isTooLarge ex1 = false →
      worldpop_zonal_stats env shapefile out_path constrained scale
        = Except.ok
          [Event.zonalCall (mkReq constrained fc out_path scale none),
           Event.printed (error_message ex1)])
    ∧ (∀ ex1 ex2, env.zonal (mkReq constrained fc out_path scale none)
        = CallResult.failure ex1 → isTooLarge ex1 = true →
      env.zonal (mkReq constrained fc out_path scale (some 2))
        = CallResult.failure ex2 → isTooLarge ex2 = false →
      worldpop_zonal_stats env shapefile out_path constrained scale
        = Except.ok
          [Event.zonalCall (mkReq constrained fc out_path scale none),
           Event.printed retry2Msg,
           Event.zonalCall (mkReq constrained fc out_path scale (some 2)),
           Event.printed (error_message ex2)])
    ∧ (∀ ex1 ex2 ex3, env.zonal (mkReq constrained fc out_path scale none)
        = CallResult.failure ex1 → isTooLarge ex1 = true →
      env.zonal (mkReq constrained fc out_path scale (some 2))
        = CallResult.failure ex2 → isTooLarge ex2 = true →
      env.zonal (mkReq constrained fc out_path scale (some 4))
        = CallResult.failure ex3 → isTooLarge ex3 = false →
      worldpop_zonal_stats env shapefile out_path constrained scale
        = Except.ok
          [Event.zonalCall (mkReq constrained fc out_path scale none),
           Event.printed retry2Msg,
           Event.zonalCall (mkReq constrained fc out_path scale (some 2)),
           Event.printed retry4Msg,
           Event.zonalCall (mkReq constrained fc out_path scale (some 4)),
           Event.printed (error_message ex3)]) := by
  refine ⟨?_, ?_, ?_⟩
  · intro ex1 h1 ht1
    simp [worldpop_zonal_stats, zonal_statistics, hfc, h1, ht1]
  · intro ex1 ex2 h1 ht1 h2 ht2
    simp [worldpop_zonal_stats, zonal_statistics, hfc, h1, ht1, h2, ht2]
  · intro ex1 ex2 ex3 h1 ht1 h2 ht2 h3 ht3
    simp [worldpop_zonal_stats, zonal_statistics, hfc, h1, ht1, h2, ht2,
      h3, ht3]

/-- Witness for C5: a first-attempt opaque error yields exactly one
call and the type-and-arguments report. -/
theorem opaque_error_stops_ladder_witness :
    worldpop_zonal_stats envOpaque1 "districts.shp" "out.csv" false 100
      = Except.ok
        [Event.zonalCall (mkReq false "fc0" "out.csv" 100 none),
         Event.printed (error_message exOpaque)] :=
  (opaque_error_stops_ladder envOpaque1 "districts.shp" "out.csv"
    false 100 "fc0" rfl).1 exOpaque rfl (by decide)

/-- Claim C6: `get_worldpop_data_from_gee` selects exactly one of two
fixed, distinct dataset identifiers: the top-down-constrained one when
the flag is true and the unconstrained one when it is false. -/
theorem constrained_flag_selects_dataset :
    get_worldpop_data_from_gee true
      = EEImageCollection.imageCollection
          "WorldPop/GP/100m/pop_age_sex_cons_unadj"
    ∧ get_worldpop_data_from_gee false
      = EEImageCollection.imageCollection "WorldPop/GP/100m/pop_age_sex"
    ∧ get_worldpop_data_from_gee true ≠ get_worldpop_data_from_gee false :=
  ⟨rfl, rfl, by decide⟩

/-- Claim C8: when the first two attempts raise "too large" errors and
the third succeeds, exactly three calls are issued, the output file is
written exactly once by the third call with `tile_scale = 4`, and only
the two escalation notices are printed (no error report or give-up
message for the final attempt). -/
theorem third_attempt_success_trace (env : Env)
    (shapefile out_path : String) (constrained : Bool) (scale : Int)
    (fc : String) (hfc : env.shp_to_ee shapefile = Except.ok fc)
    (ex1 ex2 : ExnInfo)
    (h1 : env.zonal (mkReq constrained fc out_path scale none)
      = CallResult.failure ex1)
    (ht1 : isTooLarge ex1 = true)
    (h2 : env.zonal (mkReq constrained fc out_path scale (some 2))
      = CallResult.failure ex2)
    (ht2 : isTooLarge ex2 = true) (t : String)
    (h3 : env.zonal (mkReq constrained fc out_path scale (some 4))
      = CallResult.success t) :
    worldpop_zonal_stats env shapefile out_path constrained scale
      = Except.ok
        [Event.zonalCall (mkReq constrained fc out_path scale none),
         Event.printed retry2Msg,
         Event.zonalCall (mkReq constrained fc out_path scale (some 2)),
         Event.printed retry4Msg,
         Event.zonalCall (mkReq constrained fc out_path scale (some 4)),
         Event.outputWrite out_path t] := by
  simp [worldpop_zonal_stats, zonal_statistics, mkReq_out, hfc, h1, ht1,
    h2, ht2, h3]

/-- Witness for C8 on the stub platform that fails "too large" twice
and then succeeds. -/
theorem third_attempt_success_trace_witness :
    worldpop_zonal_stats envThirdOk "districts.shp" "out.csv" false 100
      = Except.ok
        [Event.zonalCall (mkReq false "fc0" "out.csv" 100 none),
         Event.printed retry2Msg,
         Event.zonalCall (mkReq false "fc0" "out.csv" 100 (some 2)),
         Event.printed retry4Msg,
         Event.zonalCall (mkReq false "fc0" "out.csv" 100 (some 4)),
         Event.outputWrite "out.csv" "id,sum\n0,1234"] :=
  third_attempt_success_trace envThirdOk "districts.shp" "out.csv"
    false 100 "fc0" rfl exTooBig exTooBig rfl (by decide) rfl (by decide)
    "id,sum\n0,1234" rfl

/-- A second stub platform, syntactically different from `envAllTooBig`
but giving the same answer to every request. -/
def envAllTooBigAlias : Env :=
  { shp_to_ee := fun _ => Except.ok ("fc" ++ "0")
    zonal := fun r =>
      match r.tile_scale with
      | _ => CallResult.failure exTooBig }

/-- Claim C9: two invocations with identical arguments against stub
platforms giving identical responses to identical requests produce
identical runs: the same sequence of aggregation requests and the same
output-write events (hence byte-identical output files). -/
theorem deterministic_runs (env1 env2 : Env)
    (hs : ∀ p, env1.shp_to_ee p = env2.shp_to_ee p)
    (hz : ∀ r, env1.zonal r = env2.zonal r)
    (shapefile out_path : String) (constrained : Bool) (scale : Int) :
    worldpop_zonal_stats env1 shapefile out_path constrained scale
      = worldpop_zonal_stats env2 shapefile out_path constrained scale := by
  rcases env1 with ⟨s1, z1⟩
  rcases env2 with ⟨s2, z2⟩
  obtain rfl : s1 = s2 := funext hs
  obtain rfl : z1 = z2 := funext hz
  rfl

/-- Witness for C9: two extensionally equal but syntactically different
stub platforms give identical runs. -/
theorem deterministic_runs_witness :
    worldpop_zonal_stats envAllTooBig "districts.shp" "out.csv" false 100
      = worldpop_zonal_stats envAllTooBigAlias "districts.shp" "out.csv"
          false 100 :=
  deterministic_runs envAllTooBig envAllTooBigAlias (fun _ => rfl)
    (fun _ => rfl) "districts.shp" "out.csv" false 100

/-- Claim C10: the entry point's declared defaults are
`out_path = "output.csv"`, `constrained = false` and `scale = 100`, and
an invocation supplying only the shapefile behaves identically to one
supplying those values explicitly. -/
theorem declared_defaults :
    (∀ env shapefile, worldpop_zonal_stats_default env shapefile
      = worldpop_zonal_stats env shapefile "output.csv" false 100)
    ∧ default_out_path = "output.csv"
    ∧ default_constrained = false
    ∧ default_scale = 100 :=
  ⟨fun _ _ => rfl, rfl, rfl, rfl⟩

/-- Claim C2: after a failing attempt n (n = 1 or 2), escalation to
attempt n+1 happens if and only if the error's text contains the
"too large" substring, and an escalated attempt uses the doubled
tile-scale budget (unset to 2, 2 to 4). -/
theorem escalation_iff_too_large (env : Env) (shapefile out_path : String)
    (constrained : Bool) (scale : Int) (fc : String)
    (hfc : env.shp_to_ee shapefile = Except.ok fc) (evs : List Event)
    (hrun : worldpop_zonal_stats env shapefile out_path constrained scale
      = Except.ok evs)
    (ex1 : ExnInfo)
    (h1 : env.zonal (mkReq constrained fc out_path scale none)
      = CallResult.failure ex1) :
    (1 < (callsOf evs).length ↔ isTooLarge ex1 = true)
    ∧ (isTooLarge ex1 = true →
        (callsOf evs).take 2
          = [mkReq constrained fc out_path scale none,
             mkReq constrained fc out_path scale (some 2)])
    ∧ (isTooLarge ex1 = true → ∀ ex2,
        env.zonal (mkReq constrained fc out_path scale (some 2))
          = CallResult.failure ex2 →
        (2 < (callsOf evs).length ↔ isTooLarge ex2 = true)
        ∧ (isTooLarge ex2 = true →
            (callsOf evs).take 3
              = [mkReq constrained fc out_path scale none,
                 mkReq constrained fc out_path scale (some 2),
                 mkReq constrained fc out_path scale (some 4)])) := by
  rcases run_cases env shapefile out_path constrained scale fc hfc with
    ⟨t, hz1, hr⟩ | ⟨e1, hz1, hT1, hr⟩ | ⟨e1, t, hz1, hT1, hz2, hr⟩
    | ⟨e1, e2, hz1, hT1, hz2, hT2, hr⟩
    | ⟨e1, e2, t, hz1, hT1, hz2, hT2, hz3, hr⟩
    | ⟨e1, e2, e3, hz1, hT1, hz2, hT2, hz3, hT3, hr⟩
    | ⟨e1, e2, e3, hz1, hT1, hz2, hT2, hz3, hT3, hr⟩
  · rw [hz1] at h1
    simp at h1
  · rw [hr] at hrun
    injection hrun with he
    subst he
    rw [hz1] at h1
    injection h1 with he1
    subst he1
    simp [callsOf, hT1]
  · rw [hr] at hrun
    injection hrun with he
    subst he
    rw [hz1] at h1
    injection h1 with he1
    subst he1
    simp [callsOf, hT1, hz2]
  · rw [hr] at hrun
    injection hrun with he
    subst he
    rw [hz1] at h1
    injection h1 with he1
    subst he1
    simp [callsOf, hT1, hz2, hT2]
  · rw [hr] at hrun
    injection hrun with he
    subst he
    rw [hz1] at h1
    injection h1 with he1
    subst he1
    simp [callsOf, hT1, hz2, hT2]
  · rw [hr] at hrun
    injection hrun with he
    subst he
    rw [hz1] at h1
    injection h1 with he1
    subst he1
    simp [callsOf, hT1, hz2, hT2]
  · rw [hr] at hrun
    injection hrun with he
    subst he
    rw [hz1] at h1
    injection h1 with he1
    subst he1
    simp [callsOf, hT1, hz2, hT2]

/-- The event trace of a run against `envThirdOk`. -/
def trThirdOk : List Event :=
  [Event.zonalCall (mkReq false "fc0" "out.csv" 100 none),
   Event.printed retry2Msg,
   Event.zonalCall (mkReq false "fc0" "out.csv" 100 (some 2)),
   Event.printed retry4Msg,
   Event.zonalCall (mkReq false "fc0" "out.csv" 100 (some 4)),
   Event.outputWrite "out.csv" "id,sum\n0,1234"]

/-- Witness for C2 on the stub platform that fails "too large" twice
before succeeding. -/
theorem escalation_iff_too_large_witness :
    (1 < (callsOf trThirdOk).length ↔ isTooLarge exTooBig = true)
    ∧ (isTooLarge exTooBig = true →
        (callsOf trThirdOk).take 2
          = [mkReq false "fc0" "out.csv" 100 none,
             mkReq false "fc0" "out.csv" 100 (some 2)])
    ∧ (isTooLarge exTooBig = true → ∀ ex2,
        envThirdOk.zonal (mkReq false "fc0" "out.csv" 100 (some 2))
          = CallResult.failure ex2 →
        (2 < (callsOf trThirdOk).length ↔ isTooLarge ex2 = true)
        ∧ (isTooLarge ex2 = true →
            (callsOf trThirdOk).take 3
              = [mkReq false "fc0" "out.csv" 100 none,
                 mkReq false "fc0" "out.csv" 100 (some 2),
                 mkReq false "fc0" "out.csv" 100 (some 4)])) :=
  escalation_iff_too_large envThirdOk "districts.shp" "out.csv" false 100
    "fc0" rfl trThirdOk rfl exTooBig rfl

/-- Claim C7: within one invocation, every aggregation request carries
the same raster handle, polygon collection, output path, resolution,
SUM statistic and best-effort flag; only the tile-scale budget varies,
and it does so along the fixed ladder unset, 2, 4. -/
theorem only_tile_scale_varies (env : Env) (shapefile out_path : String)
    (constrained : Bool) (scale : Int) (fc : String)
    (hfc : env.shp_to_ee shapefile = Except.ok fc) (evs : List Event)
    (hrun : worldpop_zonal_stats env shapefile out_path constrained scale
      = Except.ok evs) :
    (∀ r ∈ callsOf evs,
        r.raster = worldpop_mosaic constrained ∧ r.fc = fc
        ∧ r.out_file_path = out_path ∧ r.scale = scale
        ∧ r.statistics_type = "SUM" ∧ r.bestEffort = true)
    ∧ ((callsOf evs).map ZonalRequest.tile_scale = [none]
        ∨ (callsOf evs).map ZonalRequest.tile_scale = [none, some 2]
        ∨ (callsOf evs).map ZonalRequest.tile_scale
            = [none, some 2, some 4]) := by
  rcases run_cases env shapefile out_path constrained scale fc hfc with
    ⟨t, hz1, hr⟩ | ⟨e1, hz1, hT1, hr⟩ | ⟨e1, t, hz1, hT1, hz2, hr⟩
    | ⟨e1, e2, hz1, hT1, hz2, hT2, hr⟩
    | ⟨e1, e2, t, hz1, hT1, hz2, hT2, hz3, hr⟩
    | ⟨e1, e2, e3, hz1, hT1, hz2, hT2, hz3, hT3, hr⟩
    | ⟨e1, e2, e3, hz1, hT1, hz2, hT2, hz3, hT3, hr⟩ <;>
    (rw [hr] at hrun; injection hrun with he; subst he;
     simp [callsOf, mkReq])

/-- The event trace of a run against `envAllTooBig`. -/
def trAllTooBig : List Event :=
  [Event.zonalCall (mkReq false "fc0" "out.csv" 100 none),
   Event.printed retry2Msg,
   Event.zonalCall (mkReq false "fc0" "out.csv" 100 (some 2)),
   Event.printed retry4Msg,
   Event.zonalCall (mkReq false "fc0" "out.csv" 100 (some 4)),
   Event.printed giveUpMsg]

/-- Witness for C7 on the stub platform whose every attempt fails "too
large". -/
theorem only_tile_scale_varies_witness :
    (∀ r ∈ callsOf trAllTooBig,
        r.raster = worldpop_mosaic false ∧ r.fc = "fc0"
        ∧ r.out_file_path = "out.csv" ∧ r.scale = 100
        ∧ r.statistics_type = "SUM" ∧ r.bestEffort = true)
    ∧ ((callsOf trAllTooBig).map ZonalRequest.tile_scale = [none]
        ∨ (callsOf trAllTooBig).map ZonalRequest.tile_scale
            = [none, some 2]
        ∨ (callsOf trAllTooBig).map ZonalRequest.tile_scale
            = [none, some 2, some 4]) :=
  only_tile_scale_varies envAllTooBig "districts.shp" "out.csv" false 100
    "fc0" rfl trAllTooBig rfl
